import Mathlib

/-
Verification of the NILM edge-telemetry firmware (sketch_sep8b.ino).

The sketch is a single cooperative control loop on an ESP32: it reads a
PZEM-004T energy meter, detects power events by a fixed amplitude
threshold, cycles an OLED status display, and POSTs JSON telemetry to a
remote server over WiFi.

Shallow embedding conventions:
- `float` sensor values are modelled as rationals; the only NaN checks the
  sketch performs (`isnan(voltage) || isnan(current)`) are modelled as two
  explicit Bool flags on the sample.
- The mutable globals (`prevPower`, `lastSaveTime`, `lastDisplayChange`,
  `displayState`, `dataPointsSent`, `eventsDetected`, `failedRequests`)
  form the explicit `DeviceState` record; `int` counters are modelled as
  naturals (they are only ever incremented; 32-bit overflow after 2^31
  increments is out of scope).
- `millis()` values are naturals supplied by the environment; the
  `unsigned long` subtraction `millis() - last` is truncated natural
  subtraction, which agrees with the C computation while the clock has not
  wrapped (below 2^32 ms).
- Every `WiFi.status()` read is a fresh sample of an environment function
  `wifi : Nat -> Bool` (true = WL_CONNECTED), indexed by read order.
- `http.POST` returns an environment-chosen integer result code: positive
  codes are HTTP statuses, non-positive codes are transport errors.
- Calls to the display driver are recorded as an ordered list of abstract
  display actions (`DispAct`); real rendering has no further state.
- The string-concatenated JSON body of `createEventJSON` is modelled as
  the ordered list of its key/value pairs; `String(x, n)` (print with n
  decimals) is modelled as rounding the rational to n decimal places.
-/

/-- One reading of the PZEM-004T meter (the six floats the sketch reads at
the top of `loop`), with the two NaN flags the sketch tests. -/
structure SensorSample where
  voltage : ℚ
  current : ℚ
  power : ℚ
  energy : ℚ
  frequency : ℚ
  pf : ℚ
  voltageIsNan : Bool
  currentIsNan : Bool
deriving DecidableEq

/-- The sketch's mutable globals, gathered into one state record. -/
structure DeviceState where
  prevPower : ℚ
  lastSaveTime : ℕ
  lastDisplayChange : ℕ
  displayState : ℕ
  dataPointsSent : ℕ
  eventsDetected : ℕ
  failedRequests : ℕ
deriving DecidableEq

/-- An abstract display-driver call: rendering one of the five cycled
views, or the `displayError` overlay. -/
inductive DispAct where
  | view (idx : ℕ)
  | error (msg : String)
deriving DecidableEq

/-- A JSON value as the sketch writes them: a quoted string, a fixed-point
number, or an integer. -/
inductive JsonVal where
  | str (s : String)
  | num (q : ℚ)
  | int (n : ℤ)
deriving DecidableEq

/-- A serialized JSON object body, as its ordered list of fields. -/
abbrev Payload := List (String × JsonVal)

/-- Environment of one `sendDataToServer` call: the successive
`WiFi.status()` reads (index 0 is the entry check) and the result code of
`http.POST` should the POST be reached. -/
structure SendEnv where
  wifi : ℕ → Bool
  postCode : ℤ

/-- Environment of one `loop` iteration: the meter reading, the `millis()`
samples taken at the display check and at the periodic-save check and
reset, the WiFi/HTTP environments of the (up to two) sends, and the
diagnostic values read inside `createEventJSON`. -/
structure LoopEnv where
  reading : SensorSample
  millisDisplay : ℕ
  millisSaveCheck : ℕ
  millisSaveSet : ℕ
  eventSend : SendEnv
  periodicSend : SendEnv
  rssi : ℤ
  heap : ℤ

/-- Environment of `setup`: whether `display.begin` succeeds, and the
successive `WiFi.status()` reads of the startup connect loop. -/
structure SetupEnv where
  displayInitOk : Bool
  wifi : ℕ → Bool

/-- How `setup` ends: spinning forever in the display-init failure branch,
spinning forever in the WiFi-connect failure branch, or reaching `loop`. -/
inductive SetupOutcome where
  | haltDisplayInit
  | haltWifiConnect
  | proceed
deriving DecidableEq

/-- Constant `const float powerThreshold = 20.0`. -/
def powerThreshold : ℚ := 20

/-- Constant `const unsigned long saveInterval = 10000`. -/
def saveInterval : ℕ := 10000

/-- Constant `const unsigned long displayInterval = 2000`. -/
def displayInterval : ℕ := 2000

/-- Increment `eventsDetected++`. -/
def incEvents (s : DeviceState) : DeviceState :=
  { s with eventsDetected := s.eventsDetected + 1 }

/-- Increment `dataPointsSent++`. -/
def incSent (s : DeviceState) : DeviceState :=
  { s with dataPointsSent := s.dataPointsSent + 1 }

/-- Increment `failedRequests++`. -/
def incFailed (s : DeviceState) : DeviceState :=
  { s with failedRequests := s.failedRequests + 1 }

/-- Source `displayError(msg)`: renders the error overlay; it touches no global
state, so it is just the recorded display action. -/
def displayError (msg : String) : List DispAct :=
  [DispAct.error msg]

/-- A `while (WiFi.status() != WL_CONNECTED && retries < limit)` wait loop,
as both `setup` and `sendDataToServer` contain.  `fuel` is the number of
retries still allowed, `idx` the index of the status read this loop
condition performs; the returned value is the index of the read on which
the loop exited (because it saw a connection or because its retry budget
ran out).  Each recursive step stands for one `delay(...)` plus retry. -/
def wifiWaitLoop (wifi : ℕ → Bool) : ℕ → ℕ → ℕ
  | 0, idx => idx
  | fuel + 1, idx => if wifi idx then idx else wifiWaitLoop wifi fuel (idx + 1)

/-- The tail of `sendDataToServer` from `int httpResponseCode = http.POST(data)`
on: a positive result code takes the success branch and returns true; a
non-positive code logs, runs the (dead, see below) `httpResponseCode == 401`
check, increments `failedRequests` and returns false.  `pre` is the list of
display actions already performed earlier in the call. -/
structure SendOut where
  ok : Bool
  st : DeviceState
  disp : List DispAct
deriving DecidableEq

/-- Outcome of `http.POST` classification in `sendDataToServer`. -/
def httpPost (code : ℤ) (s : DeviceState) (pre : List DispAct) : SendOut :=
  if 0 < code then
    { ok := true, st := s, disp := pre }
  else
    { ok := false
      st := incFailed s
      disp := pre ++ (if code = 401 then displayError "API Key Error" else []) }

/-- Source `bool sendDataToServer(String data)`.  Entry WiFi check (read 0); when
down, `displayError("WiFi Disconnected")`, then up to 10 reconnect retries
(reads 1, 2, ...), then a final status check one read after the loop's
exit read; when that still fails, `failedRequests++` and return false,
otherwise fall through to the POST. -/
def sendDataToServer (env : SendEnv) (s : DeviceState) : SendOut :=
  if env.wifi 0 then
    httpPost env.postCode s []
  else if env.wifi (wifiWaitLoop env.wifi 10 1 + 1) then
    httpPost env.postCode s (displayError "WiFi Disconnected")
  else
    { ok := false, st := incFailed s, disp := displayError "WiFi Disconnected" }

/-- Whether a `sendDataToServer` call in environment `env` reaches the
POST step: the link is up at entry, or the reconnect loop ends with the
post-loop status check seeing a connection. -/
def reachesPost (env : SendEnv) : Bool :=
  env.wifi 0 || env.wifi (wifiWaitLoop env.wifi 10 1 + 1)

/-- The Arduino `abs(x)` macro, `((x)>0?(x):-(x))`. -/
def ratAbs (x : ℚ) : ℚ :=
  if 0 < x then x else -x

/-- Source `String(x, n)`: the sketch prints each float with a fixed number of
decimal places; modelled as rounding the rational to n decimals. -/
def roundDp (n : ℕ) (x : ℚ) : ℚ :=
  (round (x * 10 ^ n) : ℚ) / 10 ^ n

/-- Source `String createEventJSON(...)`: the JSON body, as its ordered fields.
`String(voltage, 2)`, `String(current, 3)`, `String(power, 2)`,
`String(energy, 3)`, `String(frequency, 2)`, `String(pf, 2)`,
`String(WiFi.RSSI())`, `String(ESP.getFreeHeap())`. -/
def createEventJSON (r : SensorSample) (rssi heap : ℤ) (ty : String) : Payload :=
  [("type", JsonVal.str ty),
   ("voltage", JsonVal.num (roundDp 2 r.voltage)),
   ("current", JsonVal.num (roundDp 3 r.current)),
   ("power", JsonVal.num (roundDp 2 r.power)),
   ("energy", JsonVal.num (roundDp 3 r.energy)),
   ("frequency", JsonVal.num (roundDp 2 r.frequency)),
   ("power_factor", JsonVal.num (roundDp 2 r.pf)),
   ("rssi", JsonVal.int rssi),
   ("heap", JsonVal.int heap)]

/-- State effect of `updateDisplay`: when more than `displayInterval` ms
have elapsed since `lastDisplayChange`, advance `displayState` by one
modulo 5 and stamp `lastDisplayChange`; the sketch reads `millis()` twice
here (check and stamp), modelled as the same sample `now`. -/
def updateDisplaySt (now : ℕ) (s : DeviceState) : DeviceState :=
  if displayInterval < now - s.lastDisplayChange then
    { s with displayState := (s.displayState + 1) % 5, lastDisplayChange := now }
  else s

/-- Source `void updateDisplay(...)`: advance the cycle state, then render the
view selected by the (possibly advanced) `displayState`. -/
def updateDisplay (now : ℕ) (r : SensorSample) (s : DeviceState) :
    DeviceState × List DispAct :=
  (updateDisplaySt now s, [DispAct.view (updateDisplaySt now s).displayState])

/-- Result of one `loop` iteration: the new global state, the display
actions performed, and the JSON payloads handed to `sendDataToServer`. -/
structure LoopOut where
  st : DeviceState
  disp : List DispAct
  sent : List Payload
deriving DecidableEq

/-- The event-detection branch of `loop`:
`if (abs(power - prevPower) > powerThreshold) { eventsDetected++; ...
sendDataToServer(createEventJSON(..., "event")); }`. -/
def eventBranch (env : LoopEnv) (s : DeviceState) : LoopOut :=
  if powerThreshold < ratAbs (env.reading.power - s.prevPower) then
    { st := (sendDataToServer env.eventSend (incEvents s)).st
      disp := (sendDataToServer env.eventSend (incEvents s)).disp
      sent := [createEventJSON env.reading env.rssi env.heap "event"] }
  else
    { st := s, disp := [], sent := [] }

/-- The periodic-save branch of `loop`:
`if (millis() - lastSaveTime > saveInterval) { if (sendDataToServer(...))
dataPointsSent++; lastSaveTime = millis(); }`. -/
def periodicBranch (env : LoopEnv) (s : DeviceState) : LoopOut :=
  if saveInterval < env.millisSaveCheck - s.lastSaveTime then
    { st :=
        { (if (sendDataToServer env.periodicSend s).ok then
             incSent (sendDataToServer env.periodicSend s).st
           else (sendDataToServer env.periodicSend s).st) with
          lastSaveTime := env.millisSaveSet }
      disp := (sendDataToServer env.periodicSend s).disp
      sent := [createEventJSON env.reading env.rssi env.heap "periodic"] }
  else
    { st := s, disp := [], sent := [] }

/-- Source `void loop()`.  Invalid reading (NaN voltage or current): error overlay
and early return.  Otherwise: update the display, run event detection,
run the periodic save, and finally `prevPower = power`. -/
def loop (env : LoopEnv) (s : DeviceState) : LoopOut :=
  if env.reading.voltageIsNan || env.reading.currentIsNan then
    { st := s, disp := displayError "PZEM Read Error", sent := [] }
  else
    { st :=
        { (periodicBranch env
            (eventBranch env (updateDisplaySt env.millisDisplay s)).st).st with
          prevPower := env.reading.power }
      disp :=
        (updateDisplay env.millisDisplay env.reading s).2
          ++ (eventBranch env (updateDisplaySt env.millisDisplay s)).disp
          ++ (periodicBranch env
               (eventBranch env (updateDisplaySt env.millisDisplay s)).st).disp
      sent :=
        (eventBranch env (updateDisplaySt env.millisDisplay s)).sent
          ++ (periodicBranch env
               (eventBranch env (updateDisplaySt env.millisDisplay s)).st).sent }

/-- Source `void setup()`: if `display.begin` fails, spin forever; otherwise wait
for WiFi for at most 20 retries (status reads 0, 1, ...), and if the
post-loop status check still sees no connection, spin forever; otherwise
reach `loop`. -/
def setup (env : SetupEnv) : SetupOutcome :=
  if !env.displayInitOk then
    SetupOutcome.haltDisplayInit
  else if !env.wifi (wifiWaitLoop env.wifi 20 0 + 1) then
    SetupOutcome.haltWifiConnect
  else
    SetupOutcome.proceed

/-- The globals as `setup` leaves them: `prevPower = 0`, all counters 0,
all timers 0. -/
def s0 : DeviceState :=
  { prevPower := 0, lastSaveTime := 0, lastDisplayChange := 0, displayState := 0
    dataPointsSent := 0, eventsDetected := 0, failedRequests := 0 }

/-- A valid all-zero meter reading. -/
def sampleZero : SensorSample :=
  { voltage := 0, current := 0, power := 0, energy := 0, frequency := 0, pf := 0
    voltageIsNan := false, currentIsNan := false }

/-- A valid reading at 125 W (scenario 1 of the spec, against
`prevPower = 0` the delta 125 clears the 20 W threshold). -/
def sampleEvent : SensorSample :=
  { voltage := 230, current := 1/2, power := 125, energy := 3, frequency := 50
    pf := 9/10, voltageIsNan := false, currentIsNan := false }

/-- A reading whose voltage came back NaN. -/
def sampleNaN : SensorSample :=
  { voltage := 0, current := 0, power := 0, energy := 0, frequency := 0, pf := 0
    voltageIsNan := true, currentIsNan := false }

/-- WiFi up throughout; POST answers HTTP 200. -/
def envPost200 : SendEnv := { wifi := fun _ => true, postCode := 200 }

/-- WiFi up throughout; POST answers HTTP 500 (a non-auth non-success
status). -/
def envPost500 : SendEnv := { wifi := fun _ => true, postCode := 500 }

/-- WiFi up throughout; POST answers HTTP 401 (auth rejection). -/
def envPost401 : SendEnv := { wifi := fun _ => true, postCode := 401 }

/-- WiFi down at every status read: every reconnect attempt fails. -/
def envAllDown : SendEnv := { wifi := fun _ => false, postCode := 200 }

/-- A loop iteration seeing `sampleEvent` fresh after startup: the event
branch fires, the periodic branch is not yet due, both sends would get
HTTP 200. -/
def loopEnvEvent : LoopEnv :=
  { reading := sampleEvent, millisDisplay := 0, millisSaveCheck := 0
    millisSaveSet := 0, eventSend := envPost200, periodicSend := envPost200
    rssi := -50, heap := 200000 }

/-- A loop iteration seeing an invalid (NaN) reading. -/
def loopEnvNaN : LoopEnv :=
  { reading := sampleNaN, millisDisplay := 0, millisSaveCheck := 0
    millisSaveSet := 0, eventSend := envPost200, periodicSend := envPost200
    rssi := -50, heap := 200000 }

/-- Startup environment: display init succeeds, WiFi never connects. -/
def setupEnvWifiDown : SetupEnv := { displayInitOk := true, wifi := fun _ => false }

/-- Trace of `updateDisplay` invoked at each of the given `millis()` values in
order (the display state evolution of a run of loop iterations). -/
def dispFold (ts : List ℕ) (s : DeviceState) : DeviceState :=
  ts.foldl (fun st t => (updateDisplay t sampleZero st).1) s

/-- One `updateDisplay` call per second, covering exactly
5 × displayInterval = 10000 ms of run time. -/
def dispTimes : List ℕ :=
  [1000, 2000, 3000, 4000, 5000, 6000, 7000, 8000, 9000, 10000]

/- ------------------------------------------------------------------ -/
/- Helper lemmas                                                      -/
/- ------------------------------------------------------------------ -/

theorem ratAbs_eq (x : ℚ) : ratAbs x = |x| := by
  unfold ratAbs
  rcases lt_trichotomy 0 x with h | h | h
  · rw [if_pos h, abs_of_pos h]
  · subst h; simp
  · rw [if_neg (by linarith), abs_of_neg h]

theorem wifiWaitLoop_le (wifi : ℕ → Bool) (fuel idx : ℕ) :
    wifiWaitLoop wifi fuel idx ≤ idx + fuel := by
  induction fuel generalizing idx with
  | zero => simp [wifiWaitLoop]
  | succ n ih =>
      unfold wifiWaitLoop
      split
      · omega
      · exact (ih (idx + 1)).trans (by omega)

theorem wifiWaitLoop_allFalse (wifi : ℕ → Bool) (h : ∀ i, wifi i = false)
    (fuel idx : ℕ) : wifiWaitLoop wifi fuel idx = idx + fuel := by
  induction fuel generalizing idx with
  | zero => simp [wifiWaitLoop]
  | succ n ih =>
      unfold wifiWaitLoop
      rw [h idx]
      simp only [Bool.false_eq_true, if_false]
      rw [ih (idx + 1)]
      omega

theorem sendDataToServer_st_cases (env : SendEnv) (s : DeviceState) :
    (sendDataToServer env s).st = s ∨ (sendDataToServer env s).st = incFailed s := by
  unfold sendDataToServer httpPost
  split
  · split
    · exact Or.inl rfl
    · exact Or.inr rfl
  · split
    · split
      · exact Or.inl rfl
      · exact Or.inr rfl
    · exact Or.inr rfl

theorem sendDataToServer_eventsDetected (env : SendEnv) (s : DeviceState) :
    (sendDataToServer env s).st.eventsDetected = s.eventsDetected := by
  rcases sendDataToServer_st_cases env s with h | h <;> rw [h] <;> simp [incFailed]

theorem sendDataToServer_dataPointsSent (env : SendEnv) (s : DeviceState) :
    (sendDataToServer env s).st.dataPointsSent = s.dataPointsSent := by
  rcases sendDataToServer_st_cases env s with h | h <;> rw [h] <;> simp [incFailed]

theorem sendDataToServer_displayState (env : SendEnv) (s : DeviceState) :
    (sendDataToServer env s).st.displayState = s.displayState := by
  rcases sendDataToServer_st_cases env s with h | h <;> rw [h] <;> simp [incFailed]

theorem sendDataToServer_prevPower (env : SendEnv) (s : DeviceState) :
    (sendDataToServer env s).st.prevPower = s.prevPower := by
  rcases sendDataToServer_st_cases env s with h | h <;> rw [h] <;> simp [incFailed]

theorem sendDataToServer_lastSaveTime (env : SendEnv) (s : DeviceState) :
    (sendDataToServer env s).st.lastSaveTime = s.lastSaveTime := by
  rcases sendDataToServer_st_cases env s with h | h <;> rw [h] <;> simp [incFailed]

theorem sendDataToServer_failedRequests_le (env : SendEnv) (s : DeviceState) :
    s.failedRequests ≤ (sendDataToServer env s).st.failedRequests := by
  rcases sendDataToServer_st_cases env s with h | h <;> rw [h] <;> simp [incFailed]

theorem updateDisplaySt_prevPower (now : ℕ) (s : DeviceState) :
    (updateDisplaySt now s).prevPower = s.prevPower := by
  unfold updateDisplaySt; split <;> rfl

theorem updateDisplaySt_lastSaveTime (now : ℕ) (s : DeviceState) :
    (updateDisplaySt now s).lastSaveTime = s.lastSaveTime := by
  unfold updateDisplaySt; split <;> rfl

theorem updateDisplaySt_eventsDetected (now : ℕ) (s : DeviceState) :
    (updateDisplaySt now s).eventsDetected = s.eventsDetected := by
  unfold updateDisplaySt; split <;> rfl

theorem updateDisplaySt_dataPointsSent (now : ℕ) (s : DeviceState) :
    (updateDisplaySt now s).dataPointsSent = s.dataPointsSent := by
  unfold updateDisplaySt; split <;> rfl

theorem updateDisplaySt_failedRequests (now : ℕ) (s : DeviceState) :
    (updateDisplaySt now s).failedRequests = s.failedRequests := by
  unfold updateDisplaySt; split <;> rfl

theorem eventBranch_eventsDetected (env : LoopEnv) (s : DeviceState) :
    (eventBranch env s).st.eventsDetected =
      (if powerThreshold < ratAbs (env.reading.power - s.prevPower) then
        s.eventsDetected + 1 else s.eventsDetected) := by
  unfold eventBranch
  split
  · rw [sendDataToServer_eventsDetected]; simp_all [incEvents]
  · simp_all

theorem eventBranch_dataPointsSent (env : LoopEnv) (s : DeviceState) :
    (eventBranch env s).st.dataPointsSent = s.dataPointsSent := by
  unfold eventBranch
  split
  · rw [sendDataToServer_dataPointsSent]; simp [incEvents]
  · rfl

theorem eventBranch_lastSaveTime (env : LoopEnv) (s : DeviceState) :
    (eventBranch env s).st.lastSaveTime = s.lastSaveTime := by
  unfold eventBranch
  split
  · rw [sendDataToServer_lastSaveTime]; simp [incEvents]
  · rfl

theorem eventBranch_prevPower (env : LoopEnv) (s : DeviceState) :
    (eventBranch env s).st.prevPower = s.prevPower := by
  unfold eventBranch
  split
  · rw [sendDataToServer_prevPower]; simp [incEvents]
  · rfl

theorem eventBranch_failedRequests_le (env : LoopEnv) (s : DeviceState) :
    s.failedRequests ≤ (eventBranch env s).st.failedRequests := by
  unfold eventBranch
  split
  · calc s.failedRequests = (incEvents s).failedRequests := by simp [incEvents]
      _ ≤ _ := sendDataToServer_failedRequests_le _ _
  · exact le_refl _

theorem eventBranch_sent (env : LoopEnv) (s : DeviceState) :
    (eventBranch env s).sent =
      (if powerThreshold < ratAbs (env.reading.power - s.prevPower) then
        [createEventJSON env.reading env.rssi env.heap "event"] else []) := by
  unfold eventBranch
  split <;> simp_all

theorem periodicBranch_eventsDetected (env : LoopEnv) (s : DeviceState) :
    (periodicBranch env s).st.eventsDetected = s.eventsDetected := by
  unfold periodicBranch
  split
  · split <;> simp [incSent, sendDataToServer_eventsDetected]
  · rfl

theorem periodicBranch_dataPointsSent_le (env : LoopEnv) (s : DeviceState) :
    s.dataPointsSent ≤ (periodicBranch env s).st.dataPointsSent := by
  unfold periodicBranch
  split
  · split <;> simp [incSent, sendDataToServer_dataPointsSent]
  · exact le_refl _

theorem periodicBranch_failedRequests_le (env : LoopEnv) (s : DeviceState) :
    s.failedRequests ≤ (periodicBranch env s).st.failedRequests := by
  unfold periodicBranch
  split
  · split
    · simpa [incSent] using sendDataToServer_failedRequests_le env.periodicSend s
    · simpa using sendDataToServer_failedRequests_le env.periodicSend s
  · exact le_refl _

theorem periodicBranch_sent (env : LoopEnv) (s : DeviceState) :
    (periodicBranch env s).sent =
      (if saveInterval < env.millisSaveCheck - s.lastSaveTime then
        [createEventJSON env.reading env.rssi env.heap "periodic"] else []) := by
  unfold periodicBranch
  split <;> simp_all

theorem createEventJSON_tag_ne (r : SensorSample) (a b : ℤ) :
    createEventJSON r a b "event" ≠ createEventJSON r a b "periodic" := by
  simp [createEventJSON]

theorem eventBranch_eventsDetected_le (env : LoopEnv) (s : DeviceState) :
    s.eventsDetected ≤ (eventBranch env s).st.eventsDetected := by
  rw [eventBranch_eventsDetected]
  split <;> omega

theorem periodicBranch_st_notDue (env : LoopEnv) (s : DeviceState)
    (h : ¬ saveInterval < env.millisSaveCheck - s.lastSaveTime) :
    periodicBranch env s = { st := s, disp := [], sent := [] } := by
  unfold periodicBranch
  rw [if_neg h]

theorem loop_invalid (env : LoopEnv) (s : DeviceState)
    (h : (env.reading.voltageIsNan || env.reading.currentIsNan) = true) :
    loop env s = { st := s, disp := displayError "PZEM Read Error", sent := [] } := by
  simp [loop, h]

theorem loop_valid_st (env : LoopEnv) (s : DeviceState)
    (h : (env.reading.voltageIsNan || env.reading.currentIsNan) = false) :
    (loop env s).st =
      { (periodicBranch env
          (eventBranch env (updateDisplaySt env.millisDisplay s)).st).st with
        prevPower := env.reading.power } := by
  simp [loop, h]

theorem loop_valid_sent (env : LoopEnv) (s : DeviceState)
    (h : (env.reading.voltageIsNan || env.reading.currentIsNan) = false) :
    (loop env s).sent =
      (eventBranch env (updateDisplaySt env.millisDisplay s)).sent
        ++ (periodicBranch env
             (eventBranch env (updateDisplaySt env.millisDisplay s)).st).sent := by
  simp [loop, h]

theorem roundDp_abs_le (n : ℕ) (x : ℚ) :
    |roundDp n x - x| ≤ 1 / (2 * 10 ^ n) := by
  unfold roundDp
  have h10 : (0 : ℚ) < 10 ^ n := by positivity
  have h2 : |(round (x * 10 ^ n) : ℚ) - x * 10 ^ n| ≤ 1 / 2 := by
    rw [abs_sub_comm]
    exact abs_sub_round _
  have key : (round (x * 10 ^ n) : ℚ) / 10 ^ n - x =
      ((round (x * 10 ^ n) : ℚ) - x * 10 ^ n) / 10 ^ n := by
    field_simp
    ring
  rw [key, abs_div, abs_of_pos h10]
  calc |(round (x * 10 ^ n) : ℚ) - x * 10 ^ n| / 10 ^ n
      ≤ (1 / 2) / 10 ^ n := (div_le_div_iff_of_pos_right h10).2 h2
    _ = 1 / (2 * 10 ^ n) := by rw [div_div]

/- ------------------------------------------------------------------ -/
/- Claim theorems                                                     -/
/- ------------------------------------------------------------------ -/

/-- C1 (counterexample): the claim says a non-auth non-success HTTP status
(such as 500) increments `failedRequests` and returns failure, and that a
success-range status increments `dataPointsSent`.  In the code, HTTP 500
takes the `httpResponseCode > 0` branch: the send returns success and
`failedRequests` is unchanged; and an event-triggered send that receives
HTTP 200 never increments `dataPointsSent`, because only the periodic
caller does so. -/
theorem sendOutcomeBySign_cex :
    (sendDataToServer envPost500 s0).ok = true ∧
    (sendDataToServer envPost500 s0).st.failedRequests = s0.failedRequests ∧
    (loop loopEnvEvent s0).st.dataPointsSent = s0.dataPointsSent := by
  refine ⟨rfl, rfl, ?_⟩
  have hval : (loopEnvEvent.reading.voltageIsNan
      || loopEnvEvent.reading.currentIsNan) = false := rfl
  rw [loop_valid_st loopEnvEvent s0 hval]
  show (periodicBranch loopEnvEvent
      (eventBranch loopEnvEvent (updateDisplaySt loopEnvEvent.millisDisplay s0)).st).st.dataPointsSent
    = s0.dataPointsSent
  have hnot : ¬ saveInterval < loopEnvEvent.millisSaveCheck -
      (eventBranch loopEnvEvent (updateDisplaySt loopEnvEvent.millisDisplay s0)).st.lastSaveTime := by
    rw [eventBranch_lastSaveTime, updateDisplaySt_lastSaveTime]
    decide
  rw [periodicBranch_st_notDue _ _ hnot]
  rw [eventBranch_dataPointsSent, updateDisplaySt_dataPointsSent]

/-- C1 (amended): for every send attempt that reaches the POST step, the
client classifies the outcome by whether `http.POST` produced any response
at all: a positive result code (an HTTP status of any value, success or
not) returns success with the state unchanged, while a non-positive
result code (transport-level failure) increments `failedRequests` by one
and returns failure. -/
theorem sendOutcomeBySign (env : SendEnv) (s : DeviceState)
    (h : reachesPost env = true) :
    ((sendDataToServer env s).ok = true ↔ 0 < env.postCode) ∧
    (sendDataToServer env s).st =
      (if 0 < env.postCode then s else incFailed s) := by
  have h0or : env.wifi 0 = true ∨
      (env.wifi 0 = false ∧ env.wifi (wifiWaitLoop env.wifi 10 1 + 1) = true) := by
    unfold reachesPost at h
    by_cases h0 : env.wifi 0 = true
    · exact Or.inl h0
    · have h0' : env.wifi 0 = false := by simpa using h0
      rw [h0'] at h
      simp at h
      exact Or.inr ⟨h0', h⟩
  rcases h0or with h0 | ⟨h0, h1⟩
  · by_cases hc : 0 < env.postCode <;> simp [sendDataToServer, httpPost, h0, hc]
  · by_cases hc : 0 < env.postCode <;> simp [sendDataToServer, httpPost, h0, h1, hc]

/-- C1 (witness): a send with the link up and HTTP 200. -/
theorem sendOutcomeBySign_witness :
    ((sendDataToServer envPost200 s0).ok = true ↔ 0 < envPost200.postCode) ∧
    (sendDataToServer envPost200 s0).st =
      (if 0 < envPost200.postCode then s0 else incFailed s0) :=
  sendOutcomeBySign envPost200 s0 rfl

/-- C2 (code bug): on HTTP 401 the code takes the success branch: the send
returns true with the state unchanged and no display action at all, so no
auth-failure diagnostic is ever surfaced.  The `httpResponseCode == 401`
check sits inside the `httpResponseCode <= 0` branch and can never fire:
the only display actions any send can produce are the empty list and the
"WiFi Disconnected" overlay, never "API Key Error". -/
theorem authRejectionIgnored :
    sendDataToServer envPost401 s0 = { ok := true, st := s0, disp := [] } ∧
    (∀ (env : SendEnv) (s : DeviceState),
      (sendDataToServer env s).disp = [] ∨
      (sendDataToServer env s).disp = displayError "WiFi Disconnected") := by
  refine ⟨rfl, ?_⟩
  intro env s
  by_cases h0 : env.wifi 0 = true
  · by_cases hc : 0 < env.postCode
    · left; simp [sendDataToServer, httpPost, h0, hc]
    · left
      have h401 : ¬ env.postCode = 401 := by omega
      simp [sendDataToServer, httpPost, h0, hc, h401]
  · by_cases h1 : env.wifi (wifiWaitLoop env.wifi 10 1 + 1) = true
    · by_cases hc : 0 < env.postCode
      · right; simp_all [sendDataToServer, httpPost]
      · right
        have h401 : ¬ env.postCode = 401 := by omega
        simp_all [sendDataToServer, httpPost]
        split <;> rfl
    · right; simp_all [sendDataToServer]

/-- C3: on a valid sample, the loop fires an event — incrementing
`eventsDetected` by exactly one and handing an "event"-tagged payload to
the transmission client — if and only if the absolute difference between
the new power and `prevPower` strictly exceeds the 20 W threshold; in
particular a delta exactly equal to the threshold fires no event. -/
theorem eventFires_iff_threshold (env : LoopEnv) (s : DeviceState)
    (hv : env.reading.voltageIsNan = false)
    (hc : env.reading.currentIsNan = false) :
    ((loop env s).st.eventsDetected = s.eventsDetected + 1 ∧
      createEventJSON env.reading env.rssi env.heap "event" ∈ (loop env s).sent)
      ↔ powerThreshold < |env.reading.power - s.prevPower| := by
  rw [← ratAbs_eq]
  have hval : (env.reading.voltageIsNan || env.reading.currentIsNan) = false := by
    rw [hv, hc]; rfl
  have hgoal1 : (loop env s).st.eventsDetected =
      (if powerThreshold < ratAbs (env.reading.power - s.prevPower) then
        s.eventsDetected + 1 else s.eventsDetected) := by
    rw [loop_valid_st env s hval]
    show (periodicBranch env
        (eventBranch env (updateDisplaySt env.millisDisplay s)).st).st.eventsDetected = _
    rw [periodicBranch_eventsDetected, eventBranch_eventsDetected]
    simp only [updateDisplaySt_prevPower, updateDisplaySt_eventsDetected]
  have hsent : (loop env s).sent =
      (if powerThreshold < ratAbs (env.reading.power - s.prevPower) then
        [createEventJSON env.reading env.rssi env.heap "event"] else [])
      ++ (periodicBranch env
           (eventBranch env (updateDisplaySt env.millisDisplay s)).st).sent := by
    rw [loop_valid_sent env s hval, eventBranch_sent]
    simp only [updateDisplaySt_prevPower]
  by_cases hev : powerThreshold < ratAbs (env.reading.power - s.prevPower)
  · refine iff_of_true ⟨?_, ?_⟩ hev
    · rw [hgoal1, if_pos hev]
    · rw [hsent, if_pos hev]
      exact List.mem_append_left _ (List.mem_singleton_self _)
  · refine iff_of_false (fun hcon => ?_) hev
    have h1 := hcon.1
    rw [hgoal1, if_neg hev] at h1
    omega

/-- C3 (witness): scenario 1 of the spec, `prevPower = 0`, `power = 125`,
threshold 20. -/
theorem eventFires_iff_threshold_witness :
    ((loop loopEnvEvent s0).st.eventsDetected = s0.eventsDetected + 1 ∧
      createEventJSON loopEnvEvent.reading loopEnvEvent.rssi loopEnvEvent.heap
        "event" ∈ (loop loopEnvEvent s0).sent)
      ↔ powerThreshold < |loopEnvEvent.reading.power - s0.prevPower| :=
  eventFires_iff_threshold loopEnvEvent s0 rfl rfl

/-- C4: when every WiFi status read sees the link down, a send performs
exactly 10 reconnect retries (the wait loop, entered at read index 1,
exits at read index 11), then aborts: `failedRequests` is incremented by
exactly one, the call returns failure, and no further work happens in
that call.  In every environment whatever, the wait loop performs at most
10 retries. -/
theorem reconnectBudget (env : SendEnv) (s : DeviceState)
    (h : ∀ i, env.wifi i = false) :
    sendDataToServer env s =
      { ok := false, st := incFailed s, disp := displayError "WiFi Disconnected" } ∧
    wifiWaitLoop env.wifi 10 1 = 11 ∧
    (∀ wifi : ℕ → Bool, wifiWaitLoop wifi 10 1 ≤ 11) := by
  refine ⟨?_, ?_, fun wifi => by simpa using wifiWaitLoop_le wifi 10 1⟩
  · simp [sendDataToServer, h]
  · rw [wifiWaitLoop_allFalse env.wifi h 10 1]

/-- C4 (witness): scenario 4 of the spec, sustained disconnection. -/
theorem reconnectBudget_witness :
    sendDataToServer envAllDown s0 =
      { ok := false, st := incFailed s0, disp := displayError "WiFi Disconnected" } ∧
    wifiWaitLoop envAllDown.wifi 10 1 = 11 ∧
    (∀ wifi : ℕ → Bool, wifiWaitLoop wifi 10 1 ≤ 11) :=
  reconnectBudget envAllDown s0 (fun _ => rfl)

/-- C5: the three counters are monotonically non-decreasing, both across
every `sendDataToServer` call and across every `loop` iteration, in every
environment; no operation decreases or resets them. -/
theorem countersMonotone :
    (∀ (env : SendEnv) (s : DeviceState),
      s.dataPointsSent ≤ (sendDataToServer env s).st.dataPointsSent ∧
      s.eventsDetected ≤ (sendDataToServer env s).st.eventsDetected ∧
      s.failedRequests ≤ (sendDataToServer env s).st.failedRequests) ∧
    (∀ (env : LoopEnv) (s : DeviceState),
      s.dataPointsSent ≤ (loop env s).st.dataPointsSent ∧
      s.eventsDetected ≤ (loop env s).st.eventsDetected ∧
      s.failedRequests ≤ (loop env s).st.failedRequests) := by
  constructor
  · intro env s
    exact ⟨le_of_eq (sendDataToServer_dataPointsSent env s).symm,
      le_of_eq (sendDataToServer_eventsDetected env s).symm,
      sendDataToServer_failedRequests_le env s⟩
  · intro env s
    by_cases hval : (env.reading.voltageIsNan || env.reading.currentIsNan) = true
    · rw [loop_invalid env s hval]
      exact ⟨le_refl _, le_refl _, le_refl _⟩
    · have hval' : (env.reading.voltageIsNan || env.reading.currentIsNan) = false := by
        simpa using hval
      rw [loop_valid_st env s hval']
      refine ⟨?_, ?_, ?_⟩
      · show s.dataPointsSent ≤ (periodicBranch env
          (eventBranch env (updateDisplaySt env.millisDisplay s)).st).st.dataPointsSent
        calc s.dataPointsSent
            = (updateDisplaySt env.millisDisplay s).dataPointsSent :=
              (updateDisplaySt_dataPointsSent _ s).symm
          _ = (eventBranch env (updateDisplaySt env.millisDisplay s)).st.dataPointsSent :=
              (eventBranch_dataPointsSent _ _).symm
          _ ≤ _ := periodicBranch_dataPointsSent_le _ _
      · show s.eventsDetected ≤ (periodicBranch env
          (eventBranch env (updateDisplaySt env.millisDisplay s)).st).st.eventsDetected
        rw [periodicBranch_eventsDetected]
        calc s.eventsDetected
            = (updateDisplaySt env.millisDisplay s).eventsDetected :=
              (updateDisplaySt_eventsDetected _ s).symm
          _ ≤ _ := eventBranch_eventsDetected_le _ _
      · show s.failedRequests ≤ (periodicBranch env
          (eventBranch env (updateDisplaySt env.millisDisplay s)).st).st.failedRequests
        calc s.failedRequests
            = (updateDisplaySt env.millisDisplay s).failedRequests :=
              (updateDisplaySt_failedRequests _ s).symm
          _ ≤ (eventBranch env (updateDisplaySt env.millisDisplay s)).st.failedRequests :=
              eventBranch_failedRequests_le _ _
          _ ≤ _ := periodicBranch_failedRequests_le _ _

/-- C6: the serialized body consists of exactly the nine fields `type`,
`voltage`, `current`, `power`, `energy`, `frequency`, `power_factor`,
`rssi`, `heap`, in that order; looking each field back up (re-parsing)
yields the value rounded to the coded precision — 2 decimals for voltage,
power, frequency and power factor, 3 for current and energy, exact for
the integer fields — and each rounded value is within half an ulp of the
stated precision of the original. -/
theorem jsonRoundTrip (r : SensorSample) (rssi heap : ℤ) (ty : String) :
    ((createEventJSON r rssi heap ty).map Prod.fst =
      ["type", "voltage", "current", "power", "energy", "frequency",
       "power_factor", "rssi", "heap"]) ∧
    (createEventJSON r rssi heap ty).lookup "type" = some (JsonVal.str ty) ∧
    (createEventJSON r rssi heap ty).lookup "voltage" =
      some (JsonVal.num (roundDp 2 r.voltage)) ∧
    (createEventJSON r rssi heap ty).lookup "current" =
      some (JsonVal.num (roundDp 3 r.current)) ∧
    (createEventJSON r rssi heap ty).lookup "power" =
      some (JsonVal.num (roundDp 2 r.power)) ∧
    (createEventJSON r rssi heap ty).lookup "energy" =
      some (JsonVal.num (roundDp 3 r.energy)) ∧
    (createEventJSON r rssi heap ty).lookup "frequency" =
      some (JsonVal.num (roundDp 2 r.frequency)) ∧
    (createEventJSON r rssi heap ty).lookup "power_factor" =
      some (JsonVal.num (roundDp 2 r.pf)) ∧
    (createEventJSON r rssi heap ty).lookup "rssi" = some (JsonVal.int rssi) ∧
    (createEventJSON r rssi heap ty).lookup "heap" = some (JsonVal.int heap) ∧
    |roundDp 2 r.voltage - r.voltage| ≤ 1 / 200 ∧
    |roundDp 3 r.current - r.current| ≤ 1 / 2000 ∧
    |roundDp 2 r.power - r.power| ≤ 1 / 200 ∧
    |roundDp 3 r.energy - r.energy| ≤ 1 / 2000 ∧
    |roundDp 2 r.frequency - r.frequency| ≤ 1 / 200 ∧
    |roundDp 2 r.pf - r.pf| ≤ 1 / 200 := by
  refine ⟨rfl, rfl, rfl, rfl, rfl, rfl, rfl, rfl, rfl, rfl, ?_, ?_, ?_, ?_, ?_, ?_⟩
  · exact (roundDp_abs_le 2 r.voltage).trans_eq (by norm_num)
  · exact (roundDp_abs_le 3 r.current).trans_eq (by norm_num)
  · exact (roundDp_abs_le 2 r.power).trans_eq (by norm_num)
  · exact (roundDp_abs_le 3 r.energy).trans_eq (by norm_num)
  · exact (roundDp_abs_le 2 r.frequency).trans_eq (by norm_num)
  · exact (roundDp_abs_le 2 r.pf).trans_eq (by norm_num)

/-- C7 (counterexample): with `updateDisplay` invoked once per second (the
loop's natural cadence), after exactly 5 × displayInterval = 10000 ms the
view index stands at 3, not back at its starting value 0: the advance
condition is the strict `millis() - lastDisplayChange > displayInterval`
checked only once per invocation, so at this cadence the index advances
once per 3000 ms and the full cycle takes 15000 ms, not 10000 ms. -/
theorem displayCyclePeriod_cex :
    (dispFold dispTimes s0).displayState = 3 ∧ s0.displayState = 0 := by
  constructor <;> rfl

/-- C7 (amended): the display view index advances by exactly one modulo 5
— through the five views in fixed cyclic order — on precisely those
`updateDisplay` invocations that happen more than `displayInterval` ms
after the last recorded change, and is left unchanged by the others; the
error-overlay path (`sendDataToServer`, whose only display output is the
error overlay) never alters the cycle position; and five advances return
any in-range index to its start.  The real-time period therefore depends
on how often `updateDisplay` is invoked (and stalls entirely on
iterations that skip it), rather than being fixed at 5 × displayInterval. -/
theorem displayCycleStep :
    (∀ (now : ℕ) (r : SensorSample) (s : DeviceState),
      (updateDisplay now r s).1.displayState =
        (if displayInterval < now - s.lastDisplayChange then
          (s.displayState + 1) % 5 else s.displayState)) ∧
    (∀ (env : SendEnv) (s : DeviceState),
      (sendDataToServer env s).st.displayState = s.displayState) ∧
    (∀ i : ℕ, i < 5 → (fun k => (k + 1) % 5)^[5] i = i) := by
  refine ⟨?_, ?_, ?_⟩
  · intro now r s
    show (updateDisplaySt now s).displayState = _
    unfold updateDisplaySt
    split <;> rfl
  · intro env s
    exact sendDataToServer_displayState env s
  · intro i hi
    interval_cases i <;> rfl

/-- C8 (counterexample): with the display initialized successfully but the
WiFi connection failing all 20 setup attempts, `setup` still halts (in
its WiFi-failure spin loop): display-init failure is not the single
unrecoverable case. -/
theorem setupHalts_cex :
    setup setupEnvWifiDown = SetupOutcome.haltWifiConnect ∧
    setupEnvWifiDown.displayInitOk = true := by
  constructor <;> rfl

/-- C8 (amended): `setup` halts in exactly two cases — display-init
failure (always fatal, checked first), and failure of the initial WiFi
connection after its 20-attempt budget; startup proceeds to the loop
precisely when the display initializes and the post-wait WiFi check sees
a connection.  (After setup, the loop model is a total function: every
error path merely records counters and display actions.) -/
theorem setupHalts (env : SetupEnv) :
    (setup env = SetupOutcome.haltDisplayInit ↔ env.displayInitOk = false) ∧
    (setup env = SetupOutcome.proceed ↔
      (env.displayInitOk = true ∧
        env.wifi (wifiWaitLoop env.wifi 20 0 + 1) = true)) := by
  by_cases hd : env.displayInitOk = true
  · by_cases hw : env.wifi (wifiWaitLoop env.wifi 20 0 + 1) = true
    · simp [setup, hd, hw]
    · simp_all [setup]
  · simp_all [setup]

/-- C9: whenever a valid sample's power delta strictly exceeds the
threshold, `eventsDetected` is incremented by exactly one in that loop
iteration — the increment happens before `sendDataToServer` is invoked,
and the count is the same whatever the send environment does (success,
non-success status, or transport failure). -/
theorem eventCountedBeforeSend (env : LoopEnv) (s : DeviceState)
    (hv : env.reading.voltageIsNan = false)
    (hc : env.reading.currentIsNan = false)
    (hev : powerThreshold < |env.reading.power - s.prevPower|) :
    (loop env s).st.eventsDetected = s.eventsDetected + 1 := by
  rw [← ratAbs_eq] at hev
  have hval : (env.reading.voltageIsNan || env.reading.currentIsNan) = false := by
    rw [hv, hc]; rfl
  rw [loop_valid_st env s hval]
  show (periodicBranch env
      (eventBranch env (updateDisplaySt env.millisDisplay s)).st).st.eventsDetected = _
  rw [periodicBranch_eventsDetected, eventBranch_eventsDetected]
  simp only [updateDisplaySt_prevPower, updateDisplaySt_eventsDetected]
  rw [if_pos hev]

/-- C9 (witness): power 125 W against prevPower 0 W, threshold 20 W. -/
theorem eventCountedBeforeSend_witness :
    (loop loopEnvEvent s0).st.eventsDetected = s0.eventsDetected + 1 := by
  refine eventCountedBeforeSend loopEnvEvent s0 rfl rfl ?_
  show powerThreshold < |loopEnvEvent.reading.power - s0.prevPower|
  have h1 : loopEnvEvent.reading.power = (125 : ℚ) := rfl
  have h2 : s0.prevPower = (0 : ℚ) := rfl
  rw [h1, h2, sub_zero, abs_of_pos (by norm_num : (0:ℚ) < 125)]
  norm_num [powerThreshold]

/-- C10: on an invalid reading (NaN voltage or current), the loop
iteration only renders the error overlay and returns: the entire device
state — `prevPower`, `lastSaveTime`, `displayState`, `lastDisplayChange`
and all three counters — is unchanged and no payload is handed to the
transmission client. -/
theorem invalidReadingFrame (env : LoopEnv) (s : DeviceState)
    (h : (env.reading.voltageIsNan || env.reading.currentIsNan) = true) :
    loop env s = { st := s, disp := displayError "PZEM Read Error", sent := [] } :=
  loop_invalid env s h

/-- C10 (witness): a NaN voltage reading leaves the startup state intact. -/
theorem invalidReadingFrame_witness :
    loop loopEnvNaN s0 = { st := s0, disp := displayError "PZEM Read Error", sent := [] } :=
  invalidReadingFrame loopEnvNaN s0 rfl
